import Mathlib

/-!
Verification of the konfuzio_sdk resilient fetch client and resource
operations (src/konfuzio_sdk/api.py), via a shallow embedding: network
effects become explicit inputs (a list of per-attempt outcomes for the
retry loop, a page-fetch function for pagination), and Python exceptions
become `Except` errors.
-/

set_option maxRecDepth 8000

namespace KonfuzioSDK

/-- An HTTP response as seen by `retry_get`: the status code together with
the `detail` field of the JSON body (`json.loads(r.text)["detail"]`). -/
structure Response where
  status : Nat
  detail : String
deriving Repr, DecidableEq

/-- Outcome of one `session.get(url=url)` call: either a response object is
returned, or the call itself raises (transport failure), in which case the
local variable `r` is not assigned on that iteration. -/
inductive Attempt where
  | resp : Response → Attempt
  | transportFail : Attempt
deriving Repr, DecidableEq

/-- `requests.Response.raise_for_status` raises `HTTPError` exactly for
status codes in [400, 600). -/
def raisesForStatus (s : Nat) : Bool := 400 ≤ s && s < 600

/-- The ways `retry_get` can fail.  In the Python source the last three are
`ConnectionError`, `TimeoutError` (500 branch), `TimeoutError` (exhausted
branch) and `UnboundLocalError`; they are distinguished here by constructor,
with the exact message text carried along. -/
inductive RetryError where
  | connectionError : String → RetryError
  | timeoutServer : String → RetryError
  | retryExhausted : String → RetryError
  | unboundLocal : RetryError
  | serverSilent : RetryError
deriving Repr, DecidableEq

instance : DecidableEq (Except RetryError Response) := fun a b =>
  match a, b with
  | .ok x, .ok y => decidable_of_iff (x = y) (by simp)
  | .ok _, .error _ => isFalse (by simp)
  | .error _, .ok _ => isFalse (by simp)
  | .error x, .error y => decidable_of_iff (x = y) (by simp)

/-- Result of `retry_get` together with observable effect counters: number
of `session.get` calls made, number of `time.sleep(15)` calls, and number of
`logger.warning` calls.  `serverSilent` is a model artifact marking that the
finite attempt stream was consumed while the Python loop would keep going. -/
structure RetryTrace where
  result : Except RetryError Response
  attempts : Nat
  sleeps : Nat
  warnings : Nat
deriving Repr, DecidableEq

/-- The try block of one loop iteration of `retry_get`: `Sum.inr r` means
`r = session.get(...)` succeeded and `r.raise_for_status()` did not raise
(the loop breaks); `Sum.inl v` means an exception was raised, where `v` is
the value of the local variable `r` visible to the except handler (`none`
when `r` was never assigned, i.e. a transport failure on the very first
attempt). -/
def tryBlock (a : Attempt) (prev : Option Response) : Sum (Option Response) Response :=
  match a with
  | .resp r => if raisesForStatus r.status then .inl (some r) else .inr r
  | .transportFail => .inl prev

/-- The `while True` loop of `retry_get` (api.py lines 99-115), consuming
one element of the attempt stream per `session.get` call.  `prev` is the
last value assigned to the local `r`, `rc` is `retry_count`, and `att`,
`sl`, `wa` accumulate the effect counters. -/
def retryGetGo : List Attempt → Option Response → Nat → Nat → Nat → Nat → RetryTrace
  | [], _, _, att, sl, wa => ⟨.error .serverSilent, att, sl, wa⟩
  | a :: rest, prev, rc, att, sl, wa =>
    match tryBlock a prev with
    | .inr r => ⟨.ok r, att + 1, sl, wa⟩
    | .inl none => ⟨.error .unboundLocal, att + 1, sl, wa⟩
    | .inl (some r) =>
      if 401 ≤ r.status ∧ r.status ≤ 403 then
        ⟨.error (.connectionError ("Problem with credentials: " ++ r.detail)), att + 1, sl, wa⟩
      else if r.status = 500 then
        ⟨.error (.timeoutServer ("Problem with server: " ++ r.detail ++ " even after 10 retries")),
          att + 1, sl, wa⟩
      else if 10 ≤ rc + 1 then
        ⟨.error (.retryExhausted ("Unknown issue even after 10 retries " ++ r.detail)),
          att + 1, sl, wa + 1⟩
      else
        retryGetGo rest (some r) (rc + 1) (att + 1) (sl + 1) (wa + 1)

/-- `retry_get(session, url)` where the behaviour of the network is given by
the stream of per-attempt outcomes. -/
def retry_get (attempts : List Attempt) : RetryTrace :=
  retryGetGo attempts none 0 0 0 0

/-- A status that takes the final retry branch of the except handler: it
makes `raise_for_status` raise, is not in [401, 403] and is not 500. -/
def otherFailStatus (s : Nat) : Prop :=
  raisesForStatus s = true ∧ ¬(401 ≤ s ∧ s ≤ 403) ∧ s ≠ 500

theorem retryGetGo_ok_after_fails (rs : List Response)
    (h : ∀ r ∈ rs, otherFailStatus r.status)
    (r2 : Response) (h2 : raisesForStatus r2.status = false)
    (rest : List Attempt) (prev : Option Response) (rc att sl wa : Nat)
    (hcnt : rc + rs.length ≤ 9) :
    retryGetGo (rs.map Attempt.resp ++ Attempt.resp r2 :: rest) prev rc att sl wa =
      ⟨.ok r2, att + rs.length + 1, sl + rs.length, wa + rs.length⟩ := by
  induction rs generalizing prev rc att sl wa with
  | nil => simp [retryGetGo, tryBlock, h2]
  | cons r rs ih =>
    obtain ⟨hraise, hna, hn5⟩ := h r (List.mem_cons_self r rs)
    have hrest : ∀ x ∈ rs, otherFailStatus x.status := fun x hx => h x (List.mem_cons_of_mem _ hx)
    have h10 : ¬ 10 ≤ rc + 1 := by simp at hcnt; omega
    simp only [List.map_cons, List.cons_append, retryGetGo, tryBlock, hraise, if_true,
      List.append_eq]
    rw [if_neg hna, if_neg hn5, if_neg h10]
    rw [ih hrest _ (rc + 1) (att + 1) (sl + 1) (wa + 1) (by simp at hcnt ⊢; omega)]
    simp only [RetryTrace.mk.injEq, List.length_cons]
    refine ⟨trivial, by omega, by omega, by omega⟩

theorem retryGetGo_exhausted (rs : List Response)
    (h : ∀ r ∈ rs, otherFailStatus r.status)
    (rest : List Attempt) (prev : Option Response) (rc att sl wa : Nat)
    (hrc : rc ≤ 9) (hcnt : 10 ≤ rc + rs.length) :
    retryGetGo (rs.map Attempt.resp ++ rest) prev rc att sl wa =
      ⟨.error (.retryExhausted
          ("Unknown issue even after 10 retries " ++ (rs.getD (9 - rc) ⟨0, ""⟩).detail)),
        att + (10 - rc), sl + (9 - rc), wa + (10 - rc)⟩ := by
  induction rs generalizing prev rc att sl wa with
  | nil => exfalso; simp at hcnt; omega
  | cons r rs ih =>
    obtain ⟨hraise, hna, hn5⟩ := h r (List.mem_cons_self r rs)
    have hrest : ∀ x ∈ rs, otherFailStatus x.status := fun x hx => h x (List.mem_cons_of_mem _ hx)
    simp only [List.map_cons, List.cons_append, retryGetGo, tryBlock, hraise, if_true,
      List.append_eq]
    rw [if_neg hna, if_neg hn5]
    by_cases hc : 10 ≤ rc + 1
    · rw [if_pos hc]
      have hrc9 : rc = 9 := by omega
      subst hrc9
      norm_num [RetryTrace.mk.injEq, List.getD_cons_zero]
    · rw [if_neg hc]
      rw [ih hrest _ (rc + 1) (att + 1) (sl + 1) (wa + 1) (by omega) (by simp at hcnt ⊢; omega)]
      have hgd : ((r :: rs).getD (9 - rc) ⟨0, ""⟩) = rs.getD (9 - (rc + 1)) ⟨0, ""⟩ := by
        have h9 : (9 : Nat) - rc = (9 - (rc + 1)) + 1 := by omega
        rw [h9, List.getD_cons_succ]
      rw [← hgd]
      simp only [RetryTrace.mk.injEq]
      refine ⟨trivial, by omega, by omega, by omega⟩

/-- C1 (amended: "non-success status" is read as an HTTP error status in
[400, 600), the statuses for which `raise_for_status` raises — statuses such
as 304 that are neither 2xx nor errors are returned without retrying).  For
responses whose status is an error status outside [401, 403] and different
from 500: every such failed attempt logs one warning; if a 2xx response
arrives after at most nine failures, it is returned, with one 15-unit sleep
per preceding failure (nine 503s then a 200 give the 200 after nine sleeps);
with ten or more such failures the call raises the retry-exhausted error
carrying the detail of the tenth failing response, after exactly ten
attempts and nine sleeps. -/
theorem retry_get_other_error_retry (rs : List Response)
    (h : ∀ r ∈ rs, otherFailStatus r.status) :
    (∀ r2 : Response, 200 ≤ r2.status → r2.status ≤ 299 → ∀ rest : List Attempt,
        rs.length ≤ 9 →
        retry_get (rs.map Attempt.resp ++ Attempt.resp r2 :: rest) =
          ⟨.ok r2, rs.length + 1, rs.length, rs.length⟩) ∧
    (∀ rest : List Attempt, 10 ≤ rs.length →
        retry_get (rs.map Attempt.resp ++ rest) =
          ⟨.error (.retryExhausted
              ("Unknown issue even after 10 retries " ++ (rs.getD 9 ⟨0, ""⟩).detail)),
            10, 9, 10⟩) := by
  constructor
  · intro r2 hlo hhi rest hlen
    have h2 : raisesForStatus r2.status = false := by
      simp only [raisesForStatus, Bool.and_eq_false_iff, decide_eq_false_iff_not, not_le, not_lt]
      omega
    have hgo := retryGetGo_ok_after_fails rs h r2 h2 rest none 0 0 0 0 (by omega)
    simpa [retry_get] using hgo
  · intro rest hlen
    have hgo := retryGetGo_exhausted rs h rest none 0 0 0 0 (by omega) (by omega)
    simpa [retry_get] using hgo

/-- C1 witness: nine 503 responses then a 200 succeed with the 200 response
after ten requests, nine sleeps and nine warnings; eleven 503 responses
exhaust the retry budget after exactly ten attempts and nine sleeps. -/
theorem retry_get_other_error_retry_witness :
    retry_get ((List.replicate 9 (Response.mk 503 "unavailable")).map Attempt.resp
        ++ Attempt.resp ⟨200, "ok"⟩ :: []) = ⟨.ok ⟨200, "ok"⟩, 10, 9, 9⟩ ∧
    retry_get ((List.replicate 11 (Response.mk 503 "unavailable")).map Attempt.resp ++ []) =
      ⟨.error (.retryExhausted ("Unknown issue even after 10 retries " ++ "unavailable")),
        10, 9, 10⟩ := by
  have hall : ∀ n : Nat, ∀ r ∈ List.replicate n (Response.mk 503 "unavailable"),
      otherFailStatus r.status := by
    intro n r hr
    rw [List.eq_of_mem_replicate hr]
    exact ⟨rfl, by decide, by decide⟩
  constructor
  · have h1 := (retry_get_other_error_retry (List.replicate 9 ⟨503, "unavailable"⟩)
      (hall 9)).1 ⟨200, "ok"⟩ (by decide) (by decide) [] (by decide)
    simpa using h1
  · have h2 := (retry_get_other_error_retry (List.replicate 11 ⟨503, "unavailable"⟩)
      (hall 11)).2 [] (by decide)
    have hgd : (List.replicate 11 (Response.mk 503 "unavailable")).getD 9 ⟨0, ""⟩ =
        ⟨503, "unavailable"⟩ := rfl
    rw [hgd] at h2
    exact h2

/-- C1 counterexample: status 304 is a non-success (non-2xx) status outside
[401, 403] and different from 500, yet `retry_get` performs no warning, no
sleep and no retry on it — the loop breaks and the 304 response is returned
as the result, because `raise_for_status` only raises for statuses in
[400, 600). -/
theorem retry_get_nonsuccess_not_retried_counterexample :
    (¬ (200 ≤ (304 : Nat) ∧ (304 : Nat) ≤ 299)) ∧
    (¬ (401 ≤ (304 : Nat) ∧ (304 : Nat) ≤ 403)) ∧ ((304 : Nat) ≠ 500) ∧
    retry_get [Attempt.resp ⟨304, "not modified"⟩] =
      ⟨.ok ⟨304, "not modified"⟩, 1, 0, 0⟩ :=
  ⟨by decide, by decide, by decide, rfl⟩

/-- C2: when the first response has a status in [401, 403], `retry_get`
fails at once with the authentication error (`ConnectionError`) carrying the
server detail message, after a single request, zero sleeps and zero
warnings. -/
theorem retry_get_auth_immediate (r : Response) (rest : List Attempt)
    (h1 : 401 ≤ r.status) (h2 : r.status ≤ 403) :
    retry_get (Attempt.resp r :: rest) =
      ⟨.error (.connectionError ("Problem with credentials: " ++ r.detail)), 1, 0, 0⟩ := by
  have hr : raisesForStatus r.status = true := by
    simp only [raisesForStatus, Bool.and_eq_true, decide_eq_true_eq]
    omega
  simp only [retry_get, retryGetGo, tryBlock, hr, if_true]
  rw [if_pos ⟨h1, h2⟩]

/-- C2 witness: status 401 with detail "bad token" fails immediately with an
authentication error containing "bad token". -/
theorem retry_get_auth_immediate_witness :
    retry_get [Attempt.resp ⟨401, "bad token"⟩] =
      ⟨.error (.connectionError ("Problem with credentials: " ++ "bad token")), 1, 0, 0⟩ :=
  retry_get_auth_immediate ⟨401, "bad token"⟩ [] (by decide) (by decide)

/-- C3 (amended): a 500 response makes `retry_get` raise the timeout/server
error immediately on the attempt that received it — one request, zero
retries, zero sleeps — carrying the server detail message; the message text
claims "even after 10 retries" although no retry happened. -/
theorem retry_get_500_immediate (r : Response) (rest : List Attempt)
    (h5 : r.status = 500) :
    retry_get (Attempt.resp r :: rest) =
      ⟨.error (.timeoutServer ("Problem with server: " ++ r.detail ++ " even after 10 retries")),
        1, 0, 0⟩ := by
  have hr : raisesForStatus r.status = true := by
    simp only [raisesForStatus, Bool.and_eq_true, decide_eq_true_eq]
    omega
  have hna : ¬ (401 ≤ r.status ∧ r.status ≤ 403) := by omega
  simp only [retry_get, retryGetGo, tryBlock, hr, if_true]
  rw [if_neg hna, if_pos h5]

/-- C3 witness for the amended claim, at a concrete 500 response. -/
theorem retry_get_500_immediate_witness :
    retry_get [Attempt.resp ⟨500, "boom"⟩] =
      ⟨.error (.timeoutServer ("Problem with server: " ++ "boom" ++ " even after 10 retries")),
        1, 0, 0⟩ :=
  retry_get_500_immediate ⟨500, "boom"⟩ [] rfl

/-- C3 counterexample: with every response of status 500, the call fails on
the very first attempt (one request, zero sleeps), not after ten retry
attempts as claimed. -/
theorem retry_get_500_counterexample :
    retry_get (List.replicate 11 (Attempt.resp ⟨500, "server down"⟩)) =
      ⟨.error (.timeoutServer
          ("Problem with server: " ++ "server down" ++ " even after 10 retries")), 1, 0, 0⟩ ∧
    (1 : Nat) ≠ 10 :=
  ⟨rfl, by decide⟩

/-- C10: if `session.get` itself raises on the very first attempt, the
except handler reads the never-assigned local variable `r`, so the call
fails with the unclassified `UnboundLocalError` — which is distinct from
every classified authentication / timeout / retry-exhausted error. -/
theorem retry_get_transport_first_unclassified (rest : List Attempt) :
    retry_get (Attempt.transportFail :: rest) = ⟨.error .unboundLocal, 1, 0, 0⟩ ∧
    (∀ m : String,
      RetryError.unboundLocal ≠ .connectionError m ∧
      RetryError.unboundLocal ≠ .timeoutServer m ∧
      RetryError.unboundLocal ≠ .retryExhausted m) :=
  ⟨rfl, fun m => ⟨by simp, by simp, by simp⟩⟩

/-- A record in the documents-meta listing: the two fields that
`get_meta_of_files` reads (`id` for sorting, `dataset_status` for
filtering). -/
structure DocMeta where
  id : Nat
  dataset_status : Nat
deriving Repr, DecidableEq

/-- The parsed JSON body of one documents-meta page: either a mapping that
contains a `results` field and possibly a `next` continuation URL (an absent
field and a JSON null both become `none`; an empty string is falsy and also
stops the loop), or a plain sequence. -/
inductive MetaBody where
  | paginated : List DocMeta → Option String → MetaBody
  | plain : List DocMeta → MetaBody
deriving Repr, DecidableEq

/-- The pagination loop of `get_meta_of_files` (api.py lines 334-345).
`fetch` gives the parsed body that `retry_get` plus `.json()` produce for a
URL (assumed to succeed), `acc` is the accumulated `result` list, and `fuel`
bounds the number of iterations to make the function total — `none` marks
fuel running out on an endless `next` chain, a model artifact.  Note that a
plain-sequence body replaces the accumulator, exactly like `result = data`
in the source. -/
def fetchAllPages (fetch : String → MetaBody) :
    Nat → String → List DocMeta → Option (List DocMeta)
  | 0, _, _ => none
  | fuel + 1, url, acc =>
    match fetch url with
    | .plain items => some items
    | .paginated results next =>
      match next with
      | some nextUrl =>
        if nextUrl ≠ "" then fetchAllPages fetch fuel nextUrl (acc ++ results)
        else some (acc ++ results)
      | none => some (acc ++ results)

/-- `pageChain fetch pages` says the server behind `fetch` serves the given
nonempty chain of pages: each page is a mapping whose `results` field holds
that page's items and whose `next` field holds the following page's URL (a
nonempty string), the last page having a null or absent `next`. -/
def pageChain (fetch : String → MetaBody) : List (String × List DocMeta) → Prop
  | [] => True
  | [(u, items)] => fetch u = .paginated items none
  | (u, items) :: (u2, items2) :: rest =>
    fetch u = .paginated items (some u2) ∧ u2 ≠ "" ∧
      pageChain fetch ((u2, items2) :: rest)

theorem fetchAllPages_chain (fetch : String → MetaBody)
    (pages : List (String × List DocMeta)) (u : String) (items : List DocMeta)
    (hchain : pageChain fetch ((u, items) :: pages)) :
    ∀ fuel acc, pages.length < fuel →
      fetchAllPages fetch fuel u acc =
        some (acc ++ (((u, items) :: pages).map Prod.snd).flatten) := by
  induction pages generalizing u items with
  | nil =>
    intro fuel acc hfuel
    match fuel, hfuel with
    | fuel + 1, _ =>
      simp only [pageChain] at hchain
      simp [fetchAllPages, hchain]
  | cons p pages ih =>
    obtain ⟨u2, items2⟩ := p
    intro fuel acc hfuel
    obtain ⟨hu, hne, hrest⟩ := hchain
    match fuel, hfuel with
    | fuel + 1, hfuel =>
      simp only [fetchAllPages, hu, if_pos hne]
      rw [ih u2 items2 hrest fuel (acc ++ items) (by simpa using Nat.lt_of_succ_lt_succ hfuel)]
      simp [List.append_assoc]

/-- C4: when every page body is a mapping with a `results` field, following
`next` until it is null or absent accumulates the `results` lists across
pages in page order, so the accumulated list is the page-order concatenation
and has exactly N items, N being the sum of the page sizes; when a fetched
body is a plain sequence it is taken as the complete result set and the loop
stops after that single fetch. -/
theorem fetchAllPages_accumulates (fetch : String → MetaBody)
    (pages : List (String × List DocMeta)) (u : String) (items : List DocMeta)
    (fuel : Nat) :
    (pageChain fetch ((u, items) :: pages) → pages.length < fuel →
      fetchAllPages fetch fuel u [] =
        some ((((u, items) :: pages).map Prod.snd).flatten) ∧
      (((u, items) :: pages).map Prod.snd).flatten.length =
        (((u, items) :: pages).map (fun page => page.2.length)).sum) ∧
    (∀ u2 items2, fetch u2 = MetaBody.plain items2 → 1 ≤ fuel →
      fetchAllPages fetch fuel u2 [] = some items2) := by
  constructor
  · intro hchain hfuel
    refine ⟨?_, ?_⟩
    · simpa using fetchAllPages_chain fetch pages u items hchain fuel [] hfuel
    · rw [List.length_flatten, List.map_map]
      rfl
  · intro u2 items2 hplain hfuel
    match fuel, hfuel with
    | fuel + 1, _ => simp [fetchAllPages, hplain]

/-- C4 witness: a two-page chain with three items in page order, and a
plain-sequence body returned as-is. -/
theorem fetchAllPages_accumulates_witness :
    fetchAllPages
        (fun u => if u = "page1" then .paginated [⟨3, 2⟩, ⟨1, 3⟩] (some "page2")
          else if u = "page2" then .paginated [⟨2, 0⟩] none
          else .plain [⟨7, 2⟩]) 2 "page1" [] =
      some [⟨3, 2⟩, ⟨1, 3⟩, ⟨2, 0⟩] ∧
    fetchAllPages
        (fun u => if u = "page1" then .paginated [⟨3, 2⟩, ⟨1, 3⟩] (some "page2")
          else if u = "page2" then .paginated [⟨2, 0⟩] none
          else .plain [⟨7, 2⟩]) 2 "other" [] =
      some [⟨7, 2⟩] := by
  have h := fetchAllPages_accumulates
    (fun u => if u = "page1" then .paginated [⟨3, 2⟩, ⟨1, 3⟩] (some "page2")
      else if u = "page2" then .paginated [⟨2, 0⟩] none
      else .plain [⟨7, 2⟩])
    [("page2", [⟨2, 0⟩])] "page1" [⟨3, 2⟩, ⟨1, 3⟩] 2
  refine ⟨?_, ?_⟩
  · have h1 := (h.1 (by constructor <;> simp [pageChain]) (by decide)).1
    simpa using h1
  · exact h.2 "other" [⟨7, 2⟩] (by simp) (by decide)

/-- `get_meta_of_files` (api.py lines 317-349): accumulate all pages, sort
ascending by `id` (Python `sorted` with key `itemgetter("id")`, a stable
sort, here realised by the stable `List.insertionSort`), then keep only the
documents whose `dataset_status` is in [2, 3]. -/
def get_meta_of_files (fetch : String → MetaBody) (fuel : Nat) (startUrl : String) :
    Option (List DocMeta) :=
  (fetchAllPages fetch fuel startUrl []).map fun result =>
    let sorted_documents := List.insertionSort (fun a b => a.id ≤ b.id) result
    sorted_documents.filter fun x => x.dataset_status == 2 || x.dataset_status == 3

instance : IsTotal DocMeta (fun a b => a.id ≤ b.id) :=
  ⟨fun a b => Nat.le_total a.id b.id⟩

instance : IsTrans DocMeta (fun a b => a.id ≤ b.id) :=
  ⟨fun _ _ _ => Nat.le_trans⟩

/-- C5: every document list returned by `get_meta_of_files` contains only
entries whose `dataset_status` is 2 (training) or 3 (test), and the entry
identifiers are non-decreasing. -/
theorem get_meta_of_files_status_sorted (fetch : String → MetaBody)
    (fuel : Nat) (startUrl : String) (l : List DocMeta)
    (h : get_meta_of_files fetch fuel startUrl = some l) :
    (∀ x ∈ l, x.dataset_status = 2 ∨ x.dataset_status = 3) ∧
    l.Pairwise (fun a b => a.id ≤ b.id) := by
  rw [get_meta_of_files, Option.map_eq_some'] at h
  obtain ⟨result, _, heq⟩ := h
  subst heq
  constructor
  · intro x hx
    have hmem := List.of_mem_filter hx
    simpa using hmem
  · exact (List.sorted_insertionSort (fun a b => a.id ≤ b.id) result).filter _

/-- C5 witness: an unsorted page with statuses 2, 3, 0 yields the ascending
list of the status-2 and status-3 documents only. -/
theorem get_meta_of_files_status_sorted_witness :
    (∀ x ∈ [DocMeta.mk 1 3, DocMeta.mk 5 2],
      x.dataset_status = 2 ∨ x.dataset_status = 3) ∧
    List.Pairwise (fun a b : DocMeta => a.id ≤ b.id) [DocMeta.mk 1 3, DocMeta.mk 5 2] :=
  get_meta_of_files_status_sorted
    (fun _ => MetaBody.plain [⟨5, 2⟩, ⟨1, 3⟩, ⟨2, 0⟩]) 1 "url" _ rfl

/-- An annotation record as read by `get_document_annotations` and
`get_document_sections`: the server id (JSON null becomes `none`; Python
truthiness additionally makes 0 falsy), the `revised` and `is_correct`
flags, and the start offset (JSON null or an absent key become `none`). -/
structure AnnotationRecord where
  id : Option Nat
  revised : Bool
  is_correct : Bool
  start_offset : Option Int
deriving Repr, DecidableEq

/-- Python truthiness of the annotation id: the filter `not x["id"]` keeps
annotations whose id is null or the falsy 0. -/
def idTruthy : Option Nat → Bool
  | none => false
  | some n => n != 0

/-- The comparison induced by the Python sort key
`(x.get("start_offset") is None, x.get("start_offset"))`: null offsets sort
after every present offset, and present offsets compare by value. -/
def offsetKeyLe (a b : AnnotationRecord) : Bool :=
  match a.start_offset, b.start_offset with
  | none, none => true
  | none, some _ => false
  | some _, none => true
  | some x, some y => x ≤ y

instance : IsTotal AnnotationRecord (fun a b => offsetKeyLe a b = true) := by
  constructor
  intro a b
  obtain ⟨_, _, _, sa⟩ := a
  obtain ⟨_, _, _, sb⟩ := b
  rcases sa with _ | x <;> rcases sb with _ | y <;> simp [offsetKeyLe] <;> omega

instance : IsTrans AnnotationRecord (fun a b => offsetKeyLe a b = true) := by
  constructor
  intro a b c hab hbc
  obtain ⟨_, _, _, sa⟩ := a
  obtain ⟨_, _, _, sb⟩ := b
  obtain ⟨_, _, _, sc⟩ := c
  rcases sa with _ | x <;> rcases sb with _ | y <;> rcases sc with _ | z <;>
    simp_all [offsetKeyLe] <;> omega

/-- The ordering property claimed for returned annotation lists: start
offsets are non-decreasing, and an entry with a null offset is never
followed by an entry with a present offset (nulls come last). -/
def nullsLastByOffset (l : List AnnotationRecord) : Prop :=
  l.Pairwise fun a b =>
    (∀ x y, a.start_offset = some x → b.start_offset = some y → x ≤ y) ∧
    (a.start_offset = none → b.start_offset = none)

theorem nullsLastByOffset_of_keySorted {l : List AnnotationRecord}
    (h : l.Pairwise fun a b => offsetKeyLe a b = true) : nullsLastByOffset l := by
  refine h.imp ?_
  intro a b hab
  constructor
  · intro x y hx hy
    simp only [offsetKeyLe, hx, hy, decide_eq_true_eq] at hab
    exact hab
  · intro hnone
    cases hyb : b.start_offset with
    | none => rfl
    | some y =>
      simp only [offsetKeyLe, hnone, hyb] at hab
      exact absurd hab Bool.false_ne_true

/-- `get_document_annotations` (api.py lines 204-225), applied to the
`annotations` field of the fetched document: keep annotations that are
revised, or correct, or whose id is falsy (locally proposed), then sort
stably by the key (offset is null, offset value); `List.insertionSort` is
stable, like Python `sorted`. -/
def get_document_annotations (annotations : List AnnotationRecord) : List AnnotationRecord :=
  let revised_annotations_and_extractions :=
    annotations.filter fun x => x.revised || x.is_correct || !(idTruthy x.id)
  List.insertionSort (fun a b => offsetKeyLe a b = true) revised_annotations_and_extractions

/-- C6: `get_document_annotations` returns exactly the annotations of the
fetched document that are revised, or marked correct, or lack a (truthy)
server id — as a multiset, a permutation of that filtered sublist — ordered
with non-decreasing start offsets and every null-offset entry after all
non-null ones. -/
theorem get_document_annotations_spec (annotations : List AnnotationRecord) :
    (get_document_annotations annotations).Perm
      (annotations.filter fun x => x.revised || x.is_correct || !(idTruthy x.id)) ∧
    nullsLastByOffset (get_document_annotations annotations) := by
  constructor
  · exact List.perm_insertionSort _ _
  · exact nullsLastByOffset_of_keySorted
      (List.sorted_insertionSort (fun a b => offsetKeyLe a b = true) _)

/-- The failure `get_document_sections` can raise while sorting: Python
`sorted` with key `itemgetter("start_offset")` raises `TypeError` as soon as
a null offset is compared with anything, and a list of two or more elements
makes every element take part in at least one comparison. -/
inductive SortFailure where
  | typeError
deriving Repr, DecidableEq

/-- `get_document_sections` (api.py lines 228-243), applied to the
`annotations` field of the fetched document: keep annotations that are
revised or correct and sort them by `itemgetter("start_offset")`.  The sort
raises `TypeError` iff the kept list has at least two elements and one of
them has a null offset; otherwise either every key is a present offset, or
the list is too short for any comparison, and the stable sort by offset
returns. -/
def get_document_sections (annotations : List AnnotationRecord) :
    Except SortFailure (List AnnotationRecord) :=
  let revised_annotations := annotations.filter fun a => a.revised || a.is_correct
  if 2 ≤ revised_annotations.length ∧ ∃ a ∈ revised_annotations, a.start_offset = none then
    .error .typeError
  else
    .ok (List.insertionSort (fun a b => offsetKeyLe a b = true) revised_annotations)

/-- C7: every annotation list actually returned to the caller — by
`get_document_sections` whenever its sort does not raise, and by
`get_document_annotations` always — is ordered by ascending start offset
with missing/null offsets sorted after all others. -/
theorem annotation_lists_sorted (annotations : List AnnotationRecord) :
    (∀ secs, get_document_sections annotations = .ok secs → nullsLastByOffset secs) ∧
    nullsLastByOffset (get_document_annotations annotations) := by
  constructor
  · intro secs hsecs
    rw [get_document_sections] at hsecs
    split at hsecs
    · exact absurd hsecs (by simp)
    · simp only [Except.ok.injEq] at hsecs
      subst hsecs
      exact nullsLastByOffset_of_keySorted
        (List.sorted_insertionSort (fun a b => offsetKeyLe a b = true) _)
  · exact (get_document_annotations_spec annotations).2

/-- C7 witness: a concrete document whose kept annotations are returned by
`get_document_sections` in offset order. -/
theorem annotation_lists_sorted_witness :
    nullsLastByOffset
      [AnnotationRecord.mk (some 2) false true (some 3),
       AnnotationRecord.mk (some 1) true false (some 5)] :=
  (annotation_lists_sorted
    [⟨some 1, true, false, some 5⟩, ⟨some 2, false, true, some 3⟩]).1 _ rfl

/-- The response seen by `download_file_konfuzio_api`: status code, the
optional content-type header (`r.headers.get` yields `none` when absent),
the `detail` field of the JSON body, and the binary content. -/
structure FileResponse where
  status : Nat
  contentType : Option String
  detail : String
  content : String
deriving Repr, DecidableEq

/-- The fixed content-type whitelist of `download_file_konfuzio_api`. -/
def contentTypeWhitelist : List String :=
  ["application/pdf", "image/jpeg", "image/png", "image/jpg"]

/-- The error raised by `download_file_konfuzio_api`
(`FileNotFoundError`). -/
inductive DownloadError where
  | fileNotFound : String → DownloadError
deriving Repr, DecidableEq

/-- Python `str` of the content-type header value, as interpolated into the
error message (`None` when the header is absent). -/
def ctString : Option String → String
  | some ct => ct
  | none => "None"

/-- `download_file_konfuzio_api` (api.py lines 439-469): `raise_for_status`
raises exactly for statuses in [400, 600), and the handler re-raises
`FileNotFoundError` with the body detail when additionally the status is not
200 (always true there); afterwards a content type outside the whitelist —
or a missing header, since `None` is not in the list — raises
`FileNotFoundError`; otherwise the binary content is returned. -/
def download_file_konfuzio_api (r : FileResponse) : Except DownloadError String :=
  if raisesForStatus r.status && r.status != 200 then
    .error (.fileNotFound r.detail)
  else if (match r.contentType with
           | some ct => !(contentTypeWhitelist.contains ct)
           | none => true) then
    .error (.fileNotFound
      ("CONTENT TYP of the document is " ++ ctString r.contentType ++ " and no PDF or image."))
  else
    .ok r.content

/-- C8 (amended: "not successful" is read as the statuses for which
`raise_for_status` raises, i.e. the 4xx/5xx error range [400, 600) — a
non-2xx status outside that range, such as 304, is not by itself rejected):
an error status always raises a not-found error carrying the body detail; a
missing content-type header or one outside the whitelist {application/pdf,
image/jpeg, image/png, image/jpg} raises a not-found error regardless of
status (in particular text/html always does); a response with a non-error
status and a whitelisted content type returns the binary content. -/
theorem download_file_spec (r : FileResponse) :
    (raisesForStatus r.status = true →
      download_file_konfuzio_api r = .error (.fileNotFound r.detail)) ∧
    ((match r.contentType with
      | some ct => ct ∉ contentTypeWhitelist
      | none => True) →
      ∃ msg, download_file_konfuzio_api r = .error (.fileNotFound msg)) ∧
    (∀ ct, raisesForStatus r.status = false → r.contentType = some ct →
      ct ∈ contentTypeWhitelist → download_file_konfuzio_api r = .ok r.content) := by
  refine ⟨?_, ?_, ?_⟩
  · intro hr
    have h200 : r.status ≠ 200 := by
      simp only [raisesForStatus, Bool.and_eq_true, decide_eq_true_eq] at hr
      omega
    rw [download_file_konfuzio_api, if_pos (by simp [hr, h200])]
  · intro hct
    by_cases hr : raisesForStatus r.status && r.status != 200
    · exact ⟨r.detail, by rw [download_file_konfuzio_api, if_pos hr]⟩
    · have hcond : (match r.contentType with
          | some ct => !(contentTypeWhitelist.contains ct)
          | none => true) = true := by
        cases hc : r.contentType with
        | none => rfl
        | some ct =>
          rw [hc] at hct
          simpa using hct
      exact ⟨_, by rw [download_file_konfuzio_api, if_neg hr, if_pos hcond]⟩
  · intro ct hr hct hmem
    rw [download_file_konfuzio_api, if_neg (by simp [hr]), if_neg ?_]
    rw [hct]
    simpa using hmem

/-- C8 witness for the amended claim: a 200 response with content type
text/html is rejected with a not-found error, and a 404 response is rejected
with a not-found error carrying the body detail. -/
theorem download_file_spec_witness :
    (∃ msg, download_file_konfuzio_api ⟨200, some "text/html", "d", "c"⟩ =
      .error (.fileNotFound msg)) ∧
    download_file_konfuzio_api ⟨404, some "application/pdf", "not found", "c"⟩ =
      .error (.fileNotFound "not found") :=
  ⟨(download_file_spec ⟨200, some "text/html", "d", "c"⟩).2.1 (by decide),
   (download_file_spec ⟨404, some "application/pdf", "not found", "c"⟩).1 rfl⟩

/-- C8 counterexample: a 304 response is not a success (2xx) status, yet
with a whitelisted content type `download_file_konfuzio_api` returns its
binary content instead of raising a not-found error — `raise_for_status`
only raises for statuses in [400, 600). -/
theorem download_file_counterexample :
    (¬ (200 ≤ (304 : Nat) ∧ (304 : Nat) ≤ 299)) ∧
    download_file_konfuzio_api ⟨304, some "application/pdf", "detail", "bytes"⟩ =
      .ok "bytes" :=
  ⟨by decide, rfl⟩

/-- A generic Python `AssertionError`, raised by a failing bare `assert`. -/
inductive AssertionFailure where
  | assertionError
deriving Repr, DecidableEq

/-- `delete_file_konfuzio_api` (api.py lines 423-436): issue the DELETE,
`assert r.status_code == 204`, and return `True`. -/
def delete_file_konfuzio_api (status : Nat) : Except AssertionFailure Bool :=
  if status = 204 then .ok true else .error .assertionError

/-- `create_label` (api.py lines 365-384): POST the label payload,
`assert r.status_code == requests.codes.created` (201), and return the
created id from the response body. -/
def create_label (status : Nat) (createdId : Nat) : Except AssertionFailure Nat :=
  if status = 201 then .ok createdId else .error .assertionError

/-- C9: document deletion returns `True` exactly when the status is 204 and
raises a generic assertion failure on any other status — 200 included — and
label creation returns the created id exactly when the status is 201,
raising a generic assertion failure otherwise. -/
theorem delete_and_create_assert (status createdId : Nat) :
    (delete_file_konfuzio_api status = .ok true ↔ status = 204) ∧
    (status ≠ 204 → delete_file_konfuzio_api status = .error .assertionError) ∧
    delete_file_konfuzio_api 200 = .error .assertionError ∧
    (create_label status createdId = .ok createdId ↔ status = 201) ∧
    (status ≠ 201 → create_label status createdId = .error .assertionError) := by
  unfold delete_file_konfuzio_api create_label
  by_cases h4 : status = 204 <;> by_cases h1 : status = 201 <;>
    simp [h4, h1]

/-- C9 witness: deletion with a 200 answer raises, deletion with 204 returns
`True`, label creation with 200 raises, and with 201 returns the id. -/
theorem delete_and_create_assert_witness :
    delete_file_konfuzio_api 200 = .error .assertionError ∧
    create_label 200 7 = .error .assertionError ∧
    delete_file_konfuzio_api 204 = .ok true ∧
    create_label 201 7 = .ok 7 :=
  ⟨(delete_and_create_assert 200 7).2.1 (by decide),
   (delete_and_create_assert 200 7).2.2.2.2 (by decide),
   (delete_and_create_assert 204 7).1.mpr rfl,
   (delete_and_create_assert 201 7).2.2.2.1.mpr rfl⟩

end KonfuzioSDK
